import Mathlib

/-!
Verification development for the WorkStream Monitor task tracker.

The repository's core is a session-scoped task store (`task_manager.py`),
a derived-metrics computation over it, and an analytics aggregator
(`analytics.py`).  This file gives a shallow embedding of that core and
proves properties of it.

Modelling conventions:
* A pandas DataFrame of tasks is a `List Task`, one element per row, in
  row order.
* ISO-8601 timestamp strings (`datetime.utcnow().isoformat()` /
  `datetime.fromisoformat`) are modelled by their epoch-second values as
  `Int`; printing and parsing the ISO form is a bijection and is elided.
  `timedelta.days` on a difference of `d` seconds is `⌊d / 86400⌋`,
  i.e. `Int.fdiv d 86400`.
* Each call of `datetime.utcnow()` is one read of an external clock.
  Functions of the source that call it once receive the sampled value
  `now : Int` as a parameter; `with_derived_metrics` calls it once per
  task per metric (inside the two `.apply` loops), so it receives the
  whole clock `clock : Nat → Int` together with a call counter `k`: the
  j-th call of `utcnow` during the pass reads `clock (k + j)`.
* `uuid.uuid4()` is an external id supply; the drawn value is passed in
  as a parameter (`newId`, resp. `id1 .. id5` for the demo seed).
* Python `str.strip()` is `pyStrip`, stripping the ASCII whitespace
  characters from both ends.
* `update_task` in the source mutates a defensive copy of the stored
  frame (`get_tasks_df` returns `.copy()`) and commits it with
  `_set_tasks_df` only after all checks succeed; the embedding models
  the same observable behaviour by building the updated row in an
  `Option` chain and committing only at the end.
-/

namespace WorkStream

/-- Characters removed by Python `str.strip()` (ASCII whitespace). -/
def isPySpace (c : Char) : Bool :=
  c = ' ' || c = '\t' || c = '\n' || c = '\r' || c = Char.ofNat 11 || c = Char.ofNat 12

/-- Strip `isPySpace` characters from both ends of a character list
(right end first, then left; the order does not affect the result). -/
def pyStripList (l : List Char) : List Char :=
  ((l.reverse.dropWhile isPySpace).reverse).dropWhile isPySpace

/-- Model of Python `str.strip()`. -/
def pyStrip (s : String) : String :=
  String.mk (pyStripList s.data)

/-- Constant `VALID_STATUSES` from `task_manager.py`. -/
def VALID_STATUSES : List String :=
  ["Planned", "In Progress", "Blocked", "Completed"]

/-- Constant `DEFAULT_INACTIVITY_THRESHOLD_DAYS` from `task_manager.py`. -/
def DEFAULT_INACTIVITY_THRESHOLD_DAYS : Int := 3

/-- One row of the stored task table.  Timestamps are epoch seconds
(see the module conventions). -/
structure Task where
  task_id : String
  title : String
  description : String
  owner : String
  status : String
  created_at : Int
  last_updated_at : Int
deriving Repr, DecidableEq

/-- The Streamlit `session_state` slice used by `task_manager.py`:
the task table and the inactivity threshold. -/
structure SessionState where
  tasks_df : List Task
  inactivity_threshold_days : Int
deriving Repr, DecidableEq

/-- Model of `get_inactivity_threshold_days`: Python's
`int(st.session_state[...]) or DEFAULT` returns the default when the
stored value is `0` (falsy), else the stored value. -/
def get_inactivity_threshold_days (s : SessionState) : Int :=
  if s.inactivity_threshold_days = 0 then DEFAULT_INACTIVITY_THRESHOLD_DAYS
  else s.inactivity_threshold_days

/-- Model of `validate_task_fields` from `task_manager.py`.  `not title or not
title.strip()` is equivalent to `title.strip() == ""`, likewise for
owner.  The `description is None` branch cannot fire here because the
embedding's descriptions are always strings. -/
def validate_task_fields (title owner status : String) : List String :=
  (if pyStrip title = "" then ["Title is required."] else []) ++
  (if pyStrip owner = "" then ["Owner is required."] else []) ++
  (if status ∈ VALID_STATUSES then []
   else ["Status must be one of: Planned, In Progress, Blocked, Completed"])

/-- Model of `create_task` from `task_manager.py`.  `now` is the value sampled by
the single `datetime.utcnow()` call; `newId` is the value drawn from
`uuid.uuid4()`. -/
def create_task (s : SessionState) (now : Int) (newId : String)
    (title description owner status : String) : Option Task × SessionState :=
  let errors := validate_task_fields title owner status
  if errors = [] then
    let task : Task :=
      { task_id := newId
        title := pyStrip title
        description := pyStrip description
        owner := pyStrip owner
        status := status
        created_at := now
        last_updated_at := now }
    (some task, { s with tasks_df := s.tasks_df ++ [task] })
  else
    (none, s)

/-- The `title` block of `update_task`: validate then apply to the
working row; `none` is the early `return False`. -/
def upd_title (title : Option String) (t : Task) : Option Task :=
  match title with
  | none => some t
  | some v => if pyStrip v = "" then none else some { t with title := pyStrip v }

/-- The `description` block of `update_task`: applied without
validation (`(description or "").strip()` equals `description.strip()`
for strings). -/
def upd_description (description : Option String) (t : Task) : Option Task :=
  match description with
  | none => some t
  | some v => some { t with description := pyStrip v }

/-- The `owner` block of `update_task`. -/
def upd_owner (owner : Option String) (t : Task) : Option Task :=
  match owner with
  | none => some t
  | some v => if pyStrip v = "" then none else some { t with owner := pyStrip v }

/-- The `status` block of `update_task`. -/
def upd_status (status : Option String) (t : Task) : Option Task :=
  match status with
  | none => some t
  | some v => if v ∈ VALID_STATUSES then some { t with status := v } else none

/-- Model of `update_task` from `task_manager.py`.  `now` is the value sampled by
the single `datetime.utcnow()` call on the success path.  The source
finds the first row whose `task_id` matches, edits a defensive copy and
commits only at the end, so every failure leaves the session unchanged.
The `get?` fallback branch is unreachable (`findIdx?` only returns
in-range indices) and also leaves the session unchanged. -/
def update_task (s : SessionState) (now : Int) (task_id : String)
    (title description owner status : Option String) : Bool × SessionState :=
  let df := s.tasks_df
  if df.isEmpty then (false, s)
  else
    match df.findIdx? (fun t => t.task_id = task_id) with
    | none => (false, s)
    | some i =>
      match df.get? i with
      | none => (false, s)
      | some t0 =>
        match (((upd_title title t0).bind
                 (upd_description description)).bind
                 (upd_owner owner)).bind
                 (upd_status status) with
        | none => (false, s)
        | some t1 =>
          (true, { s with tasks_df := df.set i { t1 with last_updated_at := now } })

/-- Model of `compute_task_age_days`: `(utcnow() - created).days`. -/
def compute_task_age_days (now created_at : Int) : Int :=
  (now - created_at).fdiv 86400

/-- Model of `compute_inactivity_days`: `(utcnow() - updated).days`. -/
def compute_inactivity_days (now last_updated : Int) : Int :=
  (now - last_updated).fdiv 86400

/-- Model of `reset_all_tasks`: clears the table, threshold untouched. -/
def reset_all_tasks (s : SessionState) : SessionState :=
  { s with tasks_df := [] }

/-- One row of the derived view produced by `with_derived_metrics`. -/
structure TaskD extends Task where
  age_days : Int
  inactivity_days : Int
  at_risk : Bool
  is_blocked : Bool
  is_long_running : Bool
deriving Repr, DecidableEq

/-- Model of `with_derived_metrics` from `task_manager.py`.  The two `.apply`
columns each call `datetime.utcnow()` once per row, in row order: the
age of row `i` reads `clock (k + i)` and its inactivity reads
`clock (k + n + i)` where `n` is the row count.  The threshold is read
once per call.  On an empty frame the source returns a plain copy
(without derived columns); as a row list both sides are `[]`. -/
def with_derived_metrics (s : SessionState) (clock : Nat → Int) (k : Nat)
    (df : List Task) : List TaskD :=
  if df.isEmpty then []
  else
    let n := df.length
    let threshold := get_inactivity_threshold_days s
    df.enum.map (fun p =>
      let age := compute_task_age_days (clock (k + p.1)) p.2.created_at
      let inact := compute_inactivity_days (clock (k + n + p.1)) p.2.last_updated_at
      { p.2 with
        age_days := age
        inactivity_days := inact
        at_risk := decide (inact ≥ threshold)
        is_blocked := decide (p.2.status = "Blocked")
        is_long_running := decide (p.2.status ≠ "Completed") && decide (age ≥ threshold * 2) })

/-- Model of `seed_demo_tasks` from `task_manager.py`: one `utcnow()` call,
five literal rows with ids drawn from `uuid.uuid4()`. -/
def seed_demo_tasks (s : SessionState) (now : Int)
    (id1 id2 id3 id4 id5 : String) : SessionState :=
  { s with tasks_df :=
      [ { task_id := id1, title := "Implement auth stub"
          description := "Placeholder for future auth integration"
          owner := "Alice", status := "Planned"
          created_at := now, last_updated_at := now }
      , { task_id := id2, title := "Refactor data layer"
          description := "Separate persistence adapter"
          owner := "Bob", status := "In Progress"
          created_at := now, last_updated_at := now }
      , { task_id := id3, title := "Fix flaky tests"
          description := "Stabilize CI failures"
          owner := "Carol", status := "Blocked"
          created_at := now, last_updated_at := now }
      , { task_id := id4, title := "Improve dashboards"
          description := "Add filters and summaries"
          owner := "Dana", status := "In Progress"
          created_at := now, last_updated_at := now }
      , { task_id := id5, title := "Ship v1"
          description := "Cut scope and release"
          owner := "Eve", status := "Completed"
          created_at := now, last_updated_at := now } ] }

/-- Model of `daily_summary` from `analytics.py`: derive, count, format four
lines.  The `if total else 0` guards of the source are mirrored. -/
def daily_summary (s : SessionState) (clock : Nat → Int) (k : Nat)
    (df : List Task) : String :=
  let d := with_derived_metrics s clock k df
  let total := d.length
  let blocked := if total = 0 then 0 else d.countP (·.is_blocked)
  let at_risk := if total = 0 then 0 else d.countP (·.at_risk)
  let completed_today :=
    if total = 0 then 0
    else d.countP (fun t => decide (t.status = "Completed") && decide (t.inactivity_days = 0))
  let owners := if total = 0 then 0 else (d.map (·.owner)).eraseDups.length
  "Total tasks: " ++ toString total ++
  "\nBlocked: " ++ toString blocked ++ ", At-Risk: " ++ toString at_risk ++
  "\nCompleted today: " ++ toString completed_today ++
  "\nOwners active: " ++ toString owners

/-- The predicate used by `with_derived_metrics` proofs: every row of
one call sees one common `now`.  This is claim C1's reading of the
derivation; the code refutes it (each row samples its own `now`). -/
def singleNowConsistent (s : SessionState) (clock : Nat → Int) (k : Nat)
    (df : List Task) : Prop :=
  ∃ now : Int, ∀ t ∈ with_derived_metrics s clock k df,
    t.age_days = compute_task_age_days now t.created_at ∧
    t.inactivity_days = compute_inactivity_days now t.last_updated_at

/-! ### CSV persistence (`save_tasks_to_csv` / `load_tasks_from_csv`)

The persisted table is modelled at the text level: a header row and one
row of string cells per task (`df.to_csv(path, index=False)` writes
exactly the seven columns, no index; quoting of delimiters is the CSV
library's correct round-trip of cell text and is elided).  Reading back
goes through `pd.read_csv`, whose default per-cell behaviour is
modelled by `parseCell`: a missing-value token (such as the empty cell
an empty description was written as) becomes NaN, a numeric or boolean
literal is coerced to a non-text value, anything else stays the written
text.  The exact coerced values are irrelevant to the claims and are
not modelled; `CsvVal.coerced` records only the original text. -/

/-- A cell value as it exists in the frame after `pd.read_csv`. -/
inductive CsvVal where
  | str (s : String)
  | nan
  | coerced (s : String)
deriving Repr, DecidableEq

/-- A task row whose natural-text fields went through CSV persistence. -/
structure LoadedTask where
  task_id : CsvVal
  title : CsvVal
  description : CsvVal
  owner : CsvVal
  status : CsvVal
  created_at : CsvVal
  last_updated_at : CsvVal
deriving Repr, DecidableEq

/-- The `required_cols` list of `load_tasks_from_csv`, also the header
written by `to_csv`. -/
def REQUIRED_COLS : List String :=
  ["task_id", "title", "description", "owner", "status", "created_at", "last_updated_at"]

/-- Default missing-value tokens recognised by `pd.read_csv`
(representative subset; the empty cell is the one the claims need). -/
def NA_TOKENS : List String :=
  ["", "NA", "N/A", "NaN", "nan", "NULL", "null", "None", "n/a", "<NA>"]

/-- Is `s` a decimal integer literal (optional sign)? -/
def isIntLit (s : String) : Bool :=
  match s.data with
  | [] => false
  | '-' :: rest => !rest.isEmpty && rest.all (·.isDigit)
  | '+' :: rest => !rest.isEmpty && rest.all (·.isDigit)
  | l => l.all (·.isDigit)

/-- Is `s` a simple decimal float literal `[sign] digits . digits`
with at least one digit? -/
def isFloatLit (s : String) : Bool :=
  let core := fun (l : List Char) =>
    match l.splitOn '.' with
    | [a, b] => (!a.isEmpty || !b.isEmpty) && a.all (·.isDigit) && b.all (·.isDigit)
    | _ => false
  match s.data with
  | '-' :: rest => core rest
  | '+' :: rest => core rest
  | l => core l

/-- Is `s` a boolean literal recognised by the reader? -/
def isBoolLit (s : String) : Bool :=
  s ∈ (["True", "False", "TRUE", "FALSE"] : List String)

/-- Model of `pd.read_csv`'s default treatment of one written cell. -/
def parseCell (s : String) : CsvVal :=
  if s ∈ NA_TOKENS then .nan
  else if isIntLit s || isFloatLit s || isBoolLit s then .coerced s
  else .str s

/-- A task row as stored before export: all seven fields are text
(timestamps in their ISO form). -/
structure RawTask where
  task_id : String
  title : String
  description : String
  owner : String
  status : String
  created_at : String
  last_updated_at : String
deriving Repr, DecidableEq

/-- The CSV data row written for one task, columns in header order. -/
def rawRow (t : RawTask) : List String :=
  [t.task_id, t.title, t.description, t.owner, t.status, t.created_at, t.last_updated_at]

/-- Model of `save_tasks_to_csv`: header plus one row per task, row order
preserved, no index column. -/
def save_tasks_to_csv (df : List RawTask) : List String × List (List String) :=
  (REQUIRED_COLS, df.map rawRow)

/-- Column read of `load_tasks_from_csv`: a column absent from the
header is created and filled with empty text (`df[col] = ""` assigns
the Python string, not NaN); a present column's cells go through the
reader's `parseCell`; a short row yields NaN. -/
def readCell (header : List String) (row : List String) (col : String) : CsvVal :=
  match header.findIdx? (fun c => c = col) with
  | none => .str ""
  | some j =>
    match row.get? j with
    | some v => parseCell v
    | none => .nan

/-- One row of `load_tasks_from_csv`: pick the seven required columns
out of the file row. -/
def loadRow (header : List String) (r : List String) : LoadedTask :=
  { task_id := readCell header r "task_id"
    title := readCell header r "title"
    description := readCell header r "description"
    owner := readCell header r "owner"
    status := readCell header r "status"
    created_at := readCell header r "created_at"
    last_updated_at := readCell header r "last_updated_at" }

/-- Model of `load_tasks_from_csv`: build the frame from the file, fill missing
required columns with empty text, drop extra columns, keep row order. -/
def load_tasks_from_csv (header : List String) (rows : List (List String)) :
    List LoadedTask :=
  rows.map (loadRow header)

/-- The loaded row a task should come back as if persistence were the
identity on all fields. -/
def liftRaw (t : RawTask) : LoadedTask :=
  { task_id := .str t.task_id
    title := .str t.title
    description := .str t.description
    owner := .str t.owner
    status := .str t.status
    created_at := .str t.created_at
    last_updated_at := .str t.last_updated_at }

/-! ### Reference model for `get_tasks_df`

`get_tasks_df` returns `st.session_state["tasks_df"].copy()`.  To state
what the `.copy()` buys (claim C9), DataFrames are modelled as heap
cells holding row lists: the session owns one cell, `get_tasks_df`
allocates a fresh cell with the same contents and hands back its
address, and in-place DataFrame mutation is a heap write. -/

/-- A heap of DataFrame objects: cell contents plus the next fresh
address. -/
structure PandasHeap where
  cells : Nat → List Task
  next : Nat

/-- The session's view: the address of the stored frame. -/
structure SessionRef where
  tasks_ref : Nat

/-- In-place mutation of the DataFrame object at `addr`. -/
def heap_write (h : PandasHeap) (addr : Nat) (v : List Task) : PandasHeap :=
  { h with cells := fun a => if a = addr then v else h.cells a }

/-- Model of `get_tasks_df` as a heap operation: allocate a fresh cell, copy the
stored rows into it, return its address. -/
def get_tasks_df_ref (sess : SessionRef) (h : PandasHeap) : Nat × PandasHeap :=
  (h.next,
   { cells := fun a => if a = h.next then h.cells sess.tasks_ref else h.cells a
     next := h.next + 1 })

/-- The documented store invariant (spec §3): unique ids, enumerated
status, ordered timestamps, title and owner neither empty nor
whitespace-only. -/
def StoreInv (df : List Task) : Prop :=
  (df.map (·.task_id)).Nodup ∧
  ∀ t ∈ df, t.status ∈ VALID_STATUSES ∧ t.created_at ≤ t.last_updated_at ∧
    pyStrip t.title ≠ "" ∧ pyStrip t.owner ≠ ""

/-! ### Helper lemmas -/

theorem head?_dropWhile_eq_some {α} {p : α → Bool} {l : List α} {a : α}
    (h : (l.dropWhile p).head? = some a) : p a = false := by
  have hd := List.head?_dropWhile_not p l
  rw [h] at hd
  exact hd

theorem dropWhile_eq_self_of_head {α} {p : α → Bool} {l : List α}
    (h : ∀ a, l.head? = some a → p a = false) : l.dropWhile p = l := by
  cases l with
  | nil => rfl
  | cons x xs =>
    rw [List.dropWhile_cons_of_neg]
    simpa using h x rfl

theorem getLast?_dropWhile {α} (p : α → Bool) (l : List α)
    (hne : l.dropWhile p ≠ []) : (l.dropWhile p).getLast? = l.getLast? := by
  obtain ⟨pre, hpre⟩ := List.dropWhile_suffix (l := l) p
  conv_rhs => rw [← hpre]
  rw [List.getLast?_append]
  cases hs : (l.dropWhile p).getLast? with
  | none => exact absurd (List.getLast?_eq_none_iff.mp hs) hne
  | some a => rfl

theorem pyStripList_head {l : List Char} {a : Char}
    (h : (pyStripList l).head? = some a) : isPySpace a = false :=
  head?_dropWhile_eq_some h

theorem pyStripList_idem (l : List Char) :
    pyStripList (pyStripList l) = pyStripList l := by
  by_cases hn : pyStripList l = []
  · rw [hn]; rfl
  · have hlast : ∀ a, (pyStripList l).getLast? = some a → isPySpace a = false := by
      intro a ha
      have h1 : (pyStripList l).getLast? =
          ((l.reverse.dropWhile isPySpace).reverse).getLast? :=
        getLast?_dropWhile isPySpace ((l.reverse.dropWhile isPySpace).reverse) hn
      rw [List.getLast?_reverse, ha] at h1
      exact head?_dropWhile_eq_some h1.symm
    have h2 : (pyStripList l).reverse.dropWhile isPySpace = (pyStripList l).reverse := by
      apply dropWhile_eq_self_of_head
      intro a ha
      rw [List.head?_reverse] at ha
      exact hlast a ha
    show (((pyStripList l).reverse.dropWhile isPySpace).reverse).dropWhile isPySpace
        = pyStripList l
    rw [h2, List.reverse_reverse]
    exact dropWhile_eq_self_of_head (fun a ha => pyStripList_head ha)

theorem pyStrip_idem (s : String) : pyStrip (pyStrip s) = pyStrip s :=
  congrArg String.mk (pyStripList_idem s.data)

theorem set_get?_self {α} : ∀ (l : List α) (i : Nat) (a : α),
    l.get? i = some a → l.set i a = l := by
  intro l
  induction l with
  | nil => intro i a h; cases h
  | cons x xs ih =>
    intro i a h
    cases i with
    | zero =>
      simp only [List.get?_eq_getElem?, List.getElem?_cons_zero, Option.some.injEq] at h
      simp [h]
    | succ n =>
      simp only [List.get?_eq_getElem?, List.getElem?_cons_succ] at h
      simp only [List.set_cons_succ, List.cons.injEq, true_and]
      exact ih n a (by simpa using h)

theorem findIdx?_taskid_none {df : List Task} {tid : String}
    (h : tid ∉ df.map (·.task_id)) :
    df.findIdx? (fun t => t.task_id = tid) = none := by
  rw [List.findIdx?_eq_none_iff]
  intro x hx
  simp only [decide_eq_false_iff_not]
  intro he
  exact h (List.mem_map.mpr ⟨x, hx, he⟩)

theorem mem_enum_bounds {α} {l : List α} {p : Nat × α} (h : p ∈ l.enum) :
    p.1 < l.length ∧ l.get? p.1 = some p.2 := by
  rw [List.mem_enum_iff_getElem?] at h
  refine ⟨?_, by simpa [List.get?_eq_getElem?] using h⟩
  exact (List.getElem?_eq_some.mp h).1

theorem with_derived_metrics_length (s : SessionState) (clock : Nat → Int) (k : Nat)
    (df : List Task) : (with_derived_metrics s clock k df).length = df.length := by
  unfold with_derived_metrics
  by_cases h : df.isEmpty
  · simp [h, List.isEmpty_iff.mp h]
  · simp [h]

theorem with_derived_metrics_map_owner (s : SessionState) (clock : Nat → Int) (k : Nat)
    (df : List Task) :
    (with_derived_metrics s clock k df).map (·.owner) = df.map (·.owner) := by
  unfold with_derived_metrics
  by_cases h : df.isEmpty
  · simp [h, List.isEmpty_iff.mp h]
  · simp only [h, if_neg, Bool.false_eq_true, not_false_iff, List.map_map]
    have : ((fun (t : TaskD) => t.owner) ∘ fun p : Nat × Task =>
        ({ p.2 with
           age_days := compute_task_age_days (clock (k + p.1)) p.2.created_at
           inactivity_days :=
             compute_inactivity_days (clock (k + df.length + p.1)) p.2.last_updated_at
           at_risk := decide (compute_inactivity_days (clock (k + df.length + p.1))
             p.2.last_updated_at ≥ get_inactivity_threshold_days s)
           is_blocked := decide (p.2.status = "Blocked")
           is_long_running := decide (p.2.status ≠ "Completed") &&
             decide (compute_task_age_days (clock (k + p.1)) p.2.created_at ≥
               get_inactivity_threshold_days s * 2) } : TaskD))
        = (fun (t : Task) => t.owner) ∘ Prod.snd := rfl
    rw [this, ← List.map_map, List.enum_map_snd]

theorem upd_title_props {o : Option String} {t t' : Task} (h : upd_title o t = some t') :
    t'.task_id = t.task_id ∧ t'.created_at = t.created_at ∧
    t'.last_updated_at = t.last_updated_at ∧ t'.status = t.status ∧
    t'.owner = t.owner ∧ (t'.title = t.title ∨ pyStrip t'.title ≠ "") := by
  cases o with
  | none =>
    simp only [upd_title, Option.some.injEq] at h
    subst h
    exact ⟨rfl, rfl, rfl, rfl, rfl, Or.inl rfl⟩
  | some v =>
    by_cases hv : pyStrip v = ""
    · simp [upd_title, hv] at h
    · simp only [upd_title, hv, if_neg, Option.some.injEq, not_false_iff] at h
      subst h
      refine ⟨rfl, rfl, rfl, rfl, rfl, Or.inr ?_⟩
      show pyStrip (pyStrip v) ≠ ""
      rw [pyStrip_idem]
      exact hv

theorem upd_description_props {o : Option String} {t t' : Task}
    (h : upd_description o t = some t') :
    t'.task_id = t.task_id ∧ t'.created_at = t.created_at ∧
    t'.last_updated_at = t.last_updated_at ∧ t'.status = t.status ∧
    t'.owner = t.owner ∧ t'.title = t.title := by
  cases o with
  | none =>
    simp only [upd_description, Option.some.injEq] at h
    subst h
    exact ⟨rfl, rfl, rfl, rfl, rfl, rfl⟩
  | some v =>
    simp only [upd_description, Option.some.injEq] at h
    subst h
    exact ⟨rfl, rfl, rfl, rfl, rfl, rfl⟩

theorem upd_owner_props {o : Option String} {t t' : Task} (h : upd_owner o t = some t') :
    t'.task_id = t.task_id ∧ t'.created_at = t.created_at ∧
    t'.last_updated_at = t.last_updated_at ∧ t'.status = t.status ∧
    t'.title = t.title ∧ (t'.owner = t.owner ∨ pyStrip t'.owner ≠ "") := by
  cases o with
  | none =>
    simp only [upd_owner, Option.some.injEq] at h
    subst h
    exact ⟨rfl, rfl, rfl, rfl, rfl, Or.inl rfl⟩
  | some v =>
    by_cases hv : pyStrip v = ""
    · simp [upd_owner, hv] at h
    · simp only [upd_owner, hv, if_neg, Option.some.injEq, not_false_iff] at h
      subst h
      refine ⟨rfl, rfl, rfl, rfl, rfl, Or.inr ?_⟩
      show pyStrip (pyStrip v) ≠ ""
      rw [pyStrip_idem]
      exact hv

theorem upd_status_props {o : Option String} {t t' : Task} (h : upd_status o t = some t') :
    t'.task_id = t.task_id ∧ t'.created_at = t.created_at ∧
    t'.last_updated_at = t.last_updated_at ∧ t'.title = t.title ∧
    t'.owner = t.owner ∧ (t'.status = t.status ∨ t'.status ∈ VALID_STATUSES) := by
  cases o with
  | none =>
    simp only [upd_status, Option.some.injEq] at h
    subst h
    exact ⟨rfl, rfl, rfl, rfl, rfl, Or.inl rfl⟩
  | some v =>
    by_cases hv : v ∈ VALID_STATUSES
    · simp only [upd_status, hv, if_pos, Option.some.injEq] at h
      subst h
      exact ⟨rfl, rfl, rfl, rfl, rfl, Or.inr hv⟩
    · simp [upd_status, hv] at h

theorem upd_chain_props {title description owner status : Option String} {t0 t1 : Task}
    (h : (((upd_title title t0).bind (upd_description description)).bind
          (upd_owner owner)).bind (upd_status status) = some t1) :
    t1.task_id = t0.task_id ∧ t1.created_at = t0.created_at ∧
    (t1.status = t0.status ∨ t1.status ∈ VALID_STATUSES) ∧
    (t1.title = t0.title ∨ pyStrip t1.title ≠ "") ∧
    (t1.owner = t0.owner ∨ pyStrip t1.owner ≠ "") := by
  obtain ⟨tc, hc, hs⟩ := Option.bind_eq_some.mp h
  obtain ⟨tb, hb, ho⟩ := Option.bind_eq_some.mp hc
  obtain ⟨ta, hta, hd⟩ := Option.bind_eq_some.mp hb
  obtain ⟨ia, ca, la, sa, oa, tia⟩ := upd_title_props hta
  obtain ⟨ib, cb, lb, sb, ob, tib⟩ := upd_description_props hd
  obtain ⟨ic, cc, lc, sc, tic, oc⟩ := upd_owner_props ho
  obtain ⟨id1, cd1, ld1, tid1, od1, sd1⟩ := upd_status_props hs
  refine ⟨by rw [id1, ic, ib, ia], by rw [cd1, cc, cb, ca], ?_, ?_, ?_⟩
  · rcases sd1 with hq | hq
    · exact Or.inl (by rw [hq, sc, sb, sa])
    · exact Or.inr hq
  · rw [tid1, tic, tib]
    exact tia
  · rw [od1]
    rcases oc with hq | hq
    · exact Or.inl (by rw [hq, ob, oa])
    · exact Or.inr hq

/-! ### Claim theorems -/

/-- C5: for every task in the output of `with_derived_metrics`, the
`at_risk` flag is true iff that task's `inactivity_days` is at least
the current threshold; `inactivity_days` equal to the threshold gives
`at_risk = true`, and equal to threshold minus one gives
`at_risk = false`. -/
theorem at_risk_iff_threshold (s : SessionState) (clock : Nat → Int) (k : Nat)
    (df : List Task) (t : TaskD) (ht : t ∈ with_derived_metrics s clock k df) :
    (t.at_risk = true ↔ t.inactivity_days ≥ get_inactivity_threshold_days s) ∧
    (t.inactivity_days = get_inactivity_threshold_days s → t.at_risk = true) ∧
    (t.inactivity_days = get_inactivity_threshold_days s - 1 → t.at_risk = false) := by
  unfold with_derived_metrics at ht
  by_cases h : df.isEmpty
  · simp [h] at ht
  · simp only [h, Bool.false_eq_true, if_false, List.mem_map] at ht
    obtain ⟨p, hp, rfl⟩ := ht
    refine ⟨by simp, ?_, ?_⟩
    · intro he
      have he' : compute_inactivity_days (clock (k + df.length + p.1)) p.2.last_updated_at =
          get_inactivity_threshold_days s := he
      simp only [decide_eq_true_eq]
      omega
    · intro he
      have he' : compute_inactivity_days (clock (k + df.length + p.1)) p.2.last_updated_at =
          get_inactivity_threshold_days s - 1 := he
      simp only [decide_eq_false_iff_not]
      omega

/-- Witness for `at_risk_iff_threshold` at a concrete derived row. -/
theorem at_risk_iff_threshold_witness :
    ((⟨⟨"a", "t", "d", "o", "Planned", 0, 0⟩, 0, 0, false, false, false⟩ : TaskD).at_risk = true ↔
      (⟨⟨"a", "t", "d", "o", "Planned", 0, 0⟩, 0, 0, false, false, false⟩ : TaskD).inactivity_days ≥
        get_inactivity_threshold_days ⟨[], 5⟩) ∧
    ((⟨⟨"a", "t", "d", "o", "Planned", 0, 0⟩, 0, 0, false, false, false⟩ : TaskD).inactivity_days =
        get_inactivity_threshold_days ⟨[], 5⟩ →
      (⟨⟨"a", "t", "d", "o", "Planned", 0, 0⟩, 0, 0, false, false, false⟩ : TaskD).at_risk = true) ∧
    ((⟨⟨"a", "t", "d", "o", "Planned", 0, 0⟩, 0, 0, false, false, false⟩ : TaskD).inactivity_days =
        get_inactivity_threshold_days ⟨[], 5⟩ - 1 →
      (⟨⟨"a", "t", "d", "o", "Planned", 0, 0⟩, 0, 0, false, false, false⟩ : TaskD).at_risk = false) :=
  at_risk_iff_threshold ⟨[], 5⟩ (fun _ => 0) 0 [⟨"a", "t", "d", "o", "Planned", 0, 0⟩]
    ⟨⟨"a", "t", "d", "o", "Planned", 0, 0⟩, 0, 0, false, false, false⟩ (by decide)

/-- C6: `daily_summary` returns exactly the four-line literal format
with total count, blocked count, at-risk count, the number of tasks
that are Completed with `inactivity_days = 0`, and the distinct-owner
count; on empty input all four numbers are 0. -/
theorem daily_summary_format (s : SessionState) (clock : Nat → Int) (k : Nat)
    (df : List Task) :
    daily_summary s clock k df =
      "Total tasks: " ++ toString df.length ++
      "\nBlocked: " ++ toString ((with_derived_metrics s clock k df).countP (·.is_blocked)) ++
      ", At-Risk: " ++ toString ((with_derived_metrics s clock k df).countP (·.at_risk)) ++
      "\nCompleted today: " ++ toString ((with_derived_metrics s clock k df).countP
        (fun t => decide (t.status = "Completed") && decide (t.inactivity_days = 0))) ++
      "\nOwners active: " ++ toString ((df.map (·.owner)).eraseDups.length) ∧
    daily_summary s clock k ([] : List Task) =
      "Total tasks: 0\nBlocked: 0, At-Risk: 0\nCompleted today: 0\nOwners active: 0" := by
  constructor
  · by_cases h : df = []
    · subst h; rfl
    · have hlen := with_derived_metrics_length s clock k df
      have hown := with_derived_metrics_map_owner s clock k df
      have hne : ¬ (with_derived_metrics s clock k df).length = 0 := by
        rw [hlen, List.length_eq_zero]
        exact h
      simp only [daily_summary]
      rw [if_neg hne, if_neg hne, if_neg hne, if_neg hne, hlen, hown]
  · show "Total tasks: " ++ toString (0 : Nat) ++
      "\nBlocked: " ++ toString (0 : Nat) ++ ", At-Risk: " ++ toString (0 : Nat) ++
      "\nCompleted today: " ++ toString (0 : Nat) ++
      "\nOwners active: " ++ toString (0 : Nat) =
      "Total tasks: 0\nBlocked: 0, At-Risk: 0\nCompleted today: 0\nOwners active: 0"
    rfl

/-- C1 fails on the code: in one `with_derived_metrics` call, each row
samples its own `now` (one `utcnow()` call per row per metric).  With a
clock that advances one second across a day boundary between the two
age samples, two tasks with equal `created_at` get different
`age_days`, which no single shared `now` can produce. -/
theorem single_now_counterexample :
    ¬ singleNowConsistent ⟨[], 3⟩ (fun j => 86399 + (j : Int)) 0
      [⟨"id1", "t", "d", "o", "Planned", 0, 0⟩, ⟨"id2", "t", "d", "o", "Planned", 0, 0⟩] := by
  rintro ⟨now, h⟩
  have h1 := h ⟨⟨"id1", "t", "d", "o", "Planned", 0, 0⟩, 0, 1, false, false, false⟩ (by decide)
  have h2 := h ⟨⟨"id2", "t", "d", "o", "Planned", 0, 0⟩, 1, 1, false, false, false⟩ (by decide)
  have e1 : (0 : Int) = compute_task_age_days now 0 := h1.1
  have e2 : (1 : Int) = compute_task_age_days now 0 := h2.1
  omega

/-- C1 (amended): within one `with_derived_metrics` call every row uses
the same threshold value (read once from the session), and whenever the
clock does not advance during the pass — all `utcnow()` reads of the
call return one value `now0` — every row's `age_days` and
`inactivity_days` are computed relative to that common `now0`. -/
theorem derived_metrics_shared_threshold_frozen_clock (s : SessionState)
    (clock : Nat → Int) (k : Nat) (df : List Task) (now0 : Int)
    (hclock : ∀ j, j < 2 * df.length → clock (k + j) = now0) :
    ∀ t ∈ with_derived_metrics s clock k df,
      t.age_days = compute_task_age_days now0 t.created_at ∧
      t.inactivity_days = compute_inactivity_days now0 t.last_updated_at ∧
      t.at_risk = decide (t.inactivity_days ≥ get_inactivity_threshold_days s) := by
  intro t ht
  unfold with_derived_metrics at ht
  by_cases h : df.isEmpty
  · simp [h] at ht
  · simp only [h, Bool.false_eq_true, if_false, List.mem_map] at ht
    obtain ⟨p, hp, rfl⟩ := ht
    obtain ⟨hlt, -⟩ := mem_enum_bounds hp
    have h1 : clock (k + p.1) = now0 := hclock p.1 (by omega)
    have h2 : clock (k + df.length + p.1) = now0 := by
      have hx := hclock (df.length + p.1) (by omega)
      rw [← Nat.add_assoc] at hx
      exact hx
    refine ⟨?_, ?_, rfl⟩
    · show compute_task_age_days (clock (k + p.1)) p.2.created_at =
        compute_task_age_days now0 p.2.created_at
      rw [h1]
    · show compute_inactivity_days (clock (k + df.length + p.1)) p.2.last_updated_at =
        compute_inactivity_days now0 p.2.last_updated_at
      rw [h2]

/-- Witness for `derived_metrics_shared_threshold_frozen_clock` with a
constant clock and one task. -/
theorem derived_metrics_frozen_clock_witness :
    (⟨⟨"a", "t", "d", "o", "Planned", 0, 0⟩, 1, 1, false, false, false⟩ : TaskD).age_days =
      compute_task_age_days 100000
        (⟨⟨"a", "t", "d", "o", "Planned", 0, 0⟩, 1, 1, false, false, false⟩ : TaskD).created_at ∧
    (⟨⟨"a", "t", "d", "o", "Planned", 0, 0⟩, 1, 1, false, false, false⟩ : TaskD).inactivity_days =
      compute_inactivity_days 100000
        (⟨⟨"a", "t", "d", "o", "Planned", 0, 0⟩, 1, 1, false, false, false⟩ : TaskD).last_updated_at ∧
    (⟨⟨"a", "t", "d", "o", "Planned", 0, 0⟩, 1, 1, false, false, false⟩ : TaskD).at_risk =
      decide ((⟨⟨"a", "t", "d", "o", "Planned", 0, 0⟩, 1, 1, false, false, false⟩ : TaskD).inactivity_days ≥
        get_inactivity_threshold_days ⟨[], 3⟩) :=
  derived_metrics_shared_threshold_frozen_clock ⟨[], 3⟩ (fun _ => 100000) 0
    [⟨"a", "t", "d", "o", "Planned", 0, 0⟩] 100000 (fun _ _ => rfl)
    ⟨⟨"a", "t", "d", "o", "Planned", 0, 0⟩, 1, 1, false, false, false⟩ (by decide)

/-- C2: every `update_task` call that fails — unknown `task_id`,
supplied title or owner empty after trim, or supplied status outside
the enumeration — returns `false` and leaves the whole session state
(every field of every task) unchanged. -/
theorem update_task_failure_frame (s : SessionState) (now : Int) (tid : String)
    (title description owner status : Option String)
    (h : tid ∉ s.tasks_df.map (·.task_id)
       ∨ (∃ v, title = some v ∧ pyStrip v = "")
       ∨ (∃ v, owner = some v ∧ pyStrip v = "")
       ∨ (∃ v, status = some v ∧ v ∉ VALID_STATUSES)) :
    update_task s now tid title description owner status = (false, s) := by
  unfold update_task
  by_cases he : s.tasks_df.isEmpty
  · simp [he]
  · simp only [he, Bool.false_eq_true, if_false]
    rcases h with h | ⟨v, rfl, hv⟩ | ⟨v, rfl, hv⟩ | ⟨v, rfl, hv⟩
    · rw [findIdx?_taskid_none h]
    · split
      · rfl
      · split
        · rfl
        · split
          · rfl
          · rename_i t1 hchain
            simp only [Option.bind_eq_some] at hchain
            obtain ⟨ta, ⟨tb, ⟨tc, hta, -⟩, -⟩, -⟩ := hchain
            simp [upd_title, hv] at hta
    · split
      · rfl
      · split
        · rfl
        · split
          · rfl
          · rename_i t1 hchain
            simp only [Option.bind_eq_some] at hchain
            obtain ⟨ta, ⟨tb, -, hb⟩, -⟩ := hchain
            simp [upd_owner, hv] at hb
    · split
      · rfl
      · split
        · rfl
        · split
          · rfl
          · rename_i t1 hchain
            simp only [Option.bind_eq_some] at hchain
            obtain ⟨tc, -, hc⟩ := hchain
            simp [upd_status, hv] at hc

/-- Witness for `update_task_failure_frame`: updating an id that is not
in the store fails and changes nothing. -/
theorem update_task_failure_frame_witness :
    update_task ⟨[⟨"t1", "Title", "d", "Own", "Planned", 0, 0⟩], 3⟩ 5 "zz"
      none none none none =
      (false, ⟨[⟨"t1", "Title", "d", "Own", "Planned", 0, 0⟩], 3⟩) :=
  update_task_failure_frame ⟨[⟨"t1", "Title", "d", "Own", "Planned", 0, 0⟩], 3⟩ 5 "zz"
    none none none none (Or.inl (by decide))

/-- C10: `update_task` on an existing id with no fields supplied
succeeds, refreshes only that task's `last_updated_at` to the current
time and keeps everything else (the task's other fields and all other
rows) as it was. -/
theorem update_task_empty_update (s : SessionState) (now : Int) (tid : String)
    (i : Nat) (t0 : Task)
    (hFind : s.tasks_df.findIdx? (fun t => t.task_id = tid) = some i)
    (hGet : s.tasks_df.get? i = some t0) :
    update_task s now tid none none none none =
      (true, { s with tasks_df := s.tasks_df.set i { t0 with last_updated_at := now } }) := by
  unfold update_task
  have hne : ¬ s.tasks_df.isEmpty := by
    intro hemp
    rw [List.isEmpty_iff.mp hemp] at hFind
    cases hFind
  simp only [hne, Bool.false_eq_true, if_false, hFind, hGet]
  rfl

/-- Witness for `update_task_empty_update` on a one-task store. -/
theorem update_task_empty_update_witness :
    update_task ⟨[⟨"t1", "Title", "d", "Own", "Planned", 0, 0⟩], 3⟩ 42 "t1"
      none none none none =
      (true, { tasks_df := [⟨"t1", "Title", "d", "Own", "Planned", 0, 0⟩].set 0
                 { (⟨"t1", "Title", "d", "Own", "Planned", 0, 0⟩ : Task) with
                   last_updated_at := 42 }
               inactivity_threshold_days := 3 }) :=
  update_task_empty_update ⟨[⟨"t1", "Title", "d", "Own", "Planned", 0, 0⟩], 3⟩ 42 "t1" 0
    ⟨"t1", "Title", "d", "Own", "Planned", 0, 0⟩ (by decide) (by decide)

/-- C3: `create_task` on valid input (title and owner non-empty after
trim, status in the enumeration) succeeds: it returns a task whose id
is the freshly drawn one and distinct from every stored id, whose
`created_at` equals `last_updated_at`, whose title and owner are the
trimmed inputs, and it appends that task to the collection, growing it
by exactly one row. -/
theorem create_task_valid (s : SessionState) (now : Int) (newId : String)
    (title description owner status : String)
    (ht : pyStrip title ≠ "") (ho : pyStrip owner ≠ "")
    (hs : status ∈ VALID_STATUSES)
    (hfresh : newId ∉ s.tasks_df.map (·.task_id)) :
    ∃ task : Task,
      create_task s now newId title description owner status =
        (some task, { s with tasks_df := s.tasks_df ++ [task] }) ∧
      task.task_id = newId ∧
      task.task_id ∉ s.tasks_df.map (·.task_id) ∧
      task.created_at = task.last_updated_at ∧
      task.title = pyStrip title ∧
      task.owner = pyStrip owner ∧
      (create_task s now newId title description owner status).2.tasks_df.length =
        s.tasks_df.length + 1 := by
  have hval : validate_task_fields title owner status = [] := by
    unfold validate_task_fields
    simp [ht, ho, hs]
  refine ⟨{ task_id := newId, title := pyStrip title, description := pyStrip description
            owner := pyStrip owner, status := status
            created_at := now, last_updated_at := now }, ?_, rfl, hfresh, rfl, rfl, rfl, ?_⟩
  · unfold create_task
    rw [hval]
    rfl
  · unfold create_task
    rw [hval]
    simp

/-- Witness for `create_task_valid` on an empty store. -/
theorem create_task_valid_witness :
    ∃ task : Task,
      create_task ⟨[], 3⟩ 7 "n1" " Fix bug " "desc" " Ana " "Planned" =
        (some task, { (⟨[], 3⟩ : SessionState) with tasks_df := ([] : List Task) ++ [task] }) ∧
      task.task_id = "n1" ∧
      task.task_id ∉ ([] : List Task).map (·.task_id) ∧
      task.created_at = task.last_updated_at ∧
      task.title = pyStrip " Fix bug " ∧
      task.owner = pyStrip " Ana " ∧
      (create_task ⟨[], 3⟩ 7 "n1" " Fix bug " "desc" " Ana " "Planned").2.tasks_df.length =
        ([] : List Task).length + 1 :=
  create_task_valid ⟨[], 3⟩ 7 "n1" " Fix bug " "desc" " Ana " "Planned"
    (by decide) (by decide) (by decide) (by decide)

/-- C4: `create_task` with an empty-after-trim title or owner, or a
status outside the enumeration, reports validation errors, returns no
task and leaves the session (hence the task count) unchanged. -/
theorem create_task_invalid (s : SessionState) (now : Int) (newId : String)
    (title description owner status : String)
    (h : pyStrip title = "" ∨ pyStrip owner = "" ∨ status ∉ VALID_STATUSES) :
    create_task s now newId title description owner status = (none, s) ∧
    validate_task_fields title owner status ≠ [] := by
  have hval : validate_task_fields title owner status ≠ [] := by
    unfold validate_task_fields
    rcases h with h | h | h
    · simp [h]
    · simp [h]
    · simp [h]
  refine ⟨?_, hval⟩
  unfold create_task
  simp [hval]

/-- Witness for `create_task_invalid`: empty title on an empty store. -/
theorem create_task_invalid_witness :
    create_task ⟨[], 3⟩ 0 "id" "" "d" "o" "Planned" = (none, ⟨[], 3⟩) ∧
    validate_task_fields "" "o" "Planned" ≠ [] :=
  create_task_invalid ⟨[], 3⟩ 0 "id" "" "d" "o" "Planned" (Or.inl (by decide))

/-- A saved row whose cells all survive the reader as text comes back
as the identity lift of the task. -/
theorem loadRow_clean (t : RawTask) (h : ∀ c ∈ rawRow t, parseCell c = .str c) :
    loadRow REQUIRED_COLS (rawRow t) = liftRaw t := by
  have e : loadRow REQUIRED_COLS (rawRow t) =
      { task_id := parseCell t.task_id
        title := parseCell t.title
        description := parseCell t.description
        owner := parseCell t.owner
        status := parseCell t.status
        created_at := parseCell t.created_at
        last_updated_at := parseCell t.last_updated_at } := rfl
  rw [e, h t.task_id (by simp [rawRow]), h t.title (by simp [rawRow]),
    h t.description (by simp [rawRow]), h t.owner (by simp [rawRow]),
    h t.status (by simp [rawRow]), h t.created_at (by simp [rawRow]),
    h t.last_updated_at (by simp [rawRow])]
  rfl

/-- C7 fails on the code: the CSV reader turns an empty cell into a
missing value, so a task with an empty description does not survive the
round trip — its description comes back as NaN, not the empty text the
store held. -/
theorem csv_roundtrip_counterexample :
    load_tasks_from_csv
        (save_tasks_to_csv
          [⟨"id1", "Write spec", "", "Alice", "Planned",
            "2024-01-02T03:04:05", "2024-01-02T03:04:05"⟩]).1
        (save_tasks_to_csv
          [⟨"id1", "Write spec", "", "Alice", "Planned",
            "2024-01-02T03:04:05", "2024-01-02T03:04:05"⟩]).2 ≠
      [⟨"id1", "Write spec", "", "Alice", "Planned",
        "2024-01-02T03:04:05", "2024-01-02T03:04:05"⟩].map liftRaw := by
  decide

/-- C7 (amended): saving and bulk-loading restores an observationally
identical task set — same rows, same order, all seven fields equal —
for every store whose cells the reader keeps as text, i.e. no cell is a
missing-value token (such as empty text) or a numeric/boolean literal
that the reader coerces. -/
theorem csv_roundtrip_clean (df : List RawTask)
    (h : ∀ t ∈ df, ∀ c ∈ rawRow t,
      c ∉ NA_TOKENS ∧ isIntLit c = false ∧ isFloatLit c = false ∧ isBoolLit c = false) :
    load_tasks_from_csv (save_tasks_to_csv df).1 (save_tasks_to_csv df).2 =
      df.map liftRaw := by
  unfold save_tasks_to_csv load_tasks_from_csv
  induction df with
  | nil => rfl
  | cons t ts ih =>
    simp only [List.map_cons, List.cons.injEq]
    constructor
    · apply loadRow_clean
      intro c hc
      obtain ⟨h1, h2, h3, h4⟩ := h t (by simp) c hc
      unfold parseCell
      simp [h1, h2, h3, h4]
    · exact ih (fun u hu c hc => h u (by simp [hu]) c hc)

/-- Witness for `csv_roundtrip_clean` on a one-task store with clean
cells. -/
theorem csv_roundtrip_clean_witness :
    load_tasks_from_csv
        (save_tasks_to_csv
          [⟨"id1", "Write spec", "Some text", "Alice", "Planned",
            "2024-01-02T03:04:05", "2024-01-03T04:05:06"⟩]).1
        (save_tasks_to_csv
          [⟨"id1", "Write spec", "Some text", "Alice", "Planned",
            "2024-01-02T03:04:05", "2024-01-03T04:05:06"⟩]).2 =
      [⟨"id1", "Write spec", "Some text", "Alice", "Planned",
        "2024-01-02T03:04:05", "2024-01-03T04:05:06"⟩].map liftRaw :=
  csv_roundtrip_clean
    [⟨"id1", "Write spec", "Some text", "Alice", "Planned",
      "2024-01-02T03:04:05", "2024-01-03T04:05:06"⟩] (by decide)

/-- C8 fails on the code for bulk load: loading a file whose header
lacks the `title` column fills every title with empty text, so the
loaded store violates the documented "title never empty" invariant
(and nothing in the load path validates status or id uniqueness
either). -/
theorem store_invariant_load_counterexample :
    ¬ (∀ t ∈ load_tasks_from_csv
          ["task_id", "description", "owner", "status", "created_at", "last_updated_at"]
          [["i1", "some text", "Alice", "Planned",
            "2024-01-02T03:04:05", "2024-01-02T03:04:05"]],
        t.title ≠ CsvVal.str "") := by
  decide

/-- C8 (amended): the documented store invariant — unique ids, status
in the enumeration, `last_updated_at ≥ created_at`, title and owner
never empty or whitespace-only — is preserved by `create_task` and
`update_task`, and established by `reset_all_tasks` and
`seed_demo_tasks`, given a fresh created id, a clock not earlier than
any stored creation time, and distinct seeded ids.  (Bulk CSV load is
the exception, see the counterexample.) -/
theorem store_ops_preserve_invariant (s : SessionState) (hInv : StoreInv s.tasks_df)
    (now : Int) (newId title description owner status tid : String)
    (utitle udescription uowner ustatus : Option String)
    (id1 id2 id3 id4 id5 : String)
    (hfresh : newId ∉ s.tasks_df.map (·.task_id))
    (hclock : ∀ u ∈ s.tasks_df, u.created_at ≤ now)
    (hids : ([id1, id2, id3, id4, id5] : List String).Nodup) :
    StoreInv (create_task s now newId title description owner status).2.tasks_df ∧
    StoreInv (update_task s now tid utitle udescription uowner ustatus).2.tasks_df ∧
    StoreInv (reset_all_tasks s).tasks_df ∧
    StoreInv (seed_demo_tasks s now id1 id2 id3 id4 id5).tasks_df := by
  refine ⟨?_, ?_, ?_, ?_⟩
  · -- create_task
    simp only [create_task]
    by_cases hval : validate_task_fields title owner status = []
    · have hcomp := hval
      unfold validate_task_fields at hcomp
      rw [List.append_eq_nil, List.append_eq_nil] at hcomp
      obtain ⟨⟨hX, hY⟩, hZ⟩ := hcomp
      have ht : pyStrip title ≠ "" := by
        intro hq
        simp [hq] at hX
      have ho : pyStrip owner ≠ "" := by
        intro hq
        simp [hq] at hY
      have hs : status ∈ VALID_STATUSES := by
        by_contra hq
        simp [hq] at hZ
      rw [if_pos hval]
      constructor
      · rw [List.map_append]
        refine List.Nodup.append hInv.1 (by simp) ?_
        intro a ha hb
        simp only [List.map_cons, List.map_nil, List.mem_singleton] at hb
        subst hb
        exact hfresh ha
      · intro u hu
        rcases List.mem_append.mp hu with hu | hu
        · exact hInv.2 u hu
        · simp only [List.mem_singleton] at hu
          subst hu
          refine ⟨hs, le_refl now, ?_, ?_⟩
          · show pyStrip (pyStrip title) ≠ ""
            rw [pyStrip_idem]
            exact ht
          · show pyStrip (pyStrip owner) ≠ ""
            rw [pyStrip_idem]
            exact ho
    · rw [if_neg hval]
      exact hInv
  · -- update_task
    unfold update_task
    by_cases he : s.tasks_df.isEmpty
    · simp only [he, if_true]
      exact hInv
    · simp only [he, Bool.false_eq_true, if_false]
      split
      · exact hInv
      · rename_i i hfi
        split
        · exact hInv
        · rename_i t0 hg
          split
          · exact hInv
          · rename_i t1 hchain
            obtain ⟨hid, hcr, hst, hti, how⟩ := upd_chain_props hchain
            have ht0mem : t0 ∈ s.tasks_df := List.get?_mem hg
            obtain ⟨hs0, hc0, htl0, how0⟩ := hInv.2 t0 ht0mem
            constructor
            · rw [List.map_set]
              rw [show ({ t1 with last_updated_at := now } : Task).task_id = t0.task_id
                from hid]
              have hgm : (s.tasks_df.map (·.task_id)).get? i = some t0.task_id := by
                rw [List.get?_map, hg]
                rfl
              rw [set_get?_self _ _ _ hgm]
              exact hInv.1
            · intro u hu
              rcases List.mem_or_eq_of_mem_set hu with hu | hu
              · exact hInv.2 u hu
              · subst hu
                refine ⟨?_, ?_, ?_, ?_⟩
                · show t1.status ∈ VALID_STATUSES
                  rcases hst with hq | hq
                  · rw [hq]
                    exact hs0
                  · exact hq
                · show t1.created_at ≤ now
                  rw [hcr]
                  exact hclock t0 ht0mem
                · show pyStrip t1.title ≠ ""
                  rcases hti with hq | hq
                  · rw [hq]
                    exact htl0
                  · exact hq
                · show pyStrip t1.owner ≠ ""
                  rcases how with hq | hq
                  · rw [hq]
                    exact how0
                  · exact hq
  · -- reset_all_tasks
    constructor
    · simp [reset_all_tasks]
    · intro u hu
      simp [reset_all_tasks] at hu
  · -- seed_demo_tasks
    constructor
    · rw [show (seed_demo_tasks s now id1 id2 id3 id4 id5).tasks_df.map (·.task_id) =
        [id1, id2, id3, id4, id5] from rfl]
      exact hids
    · intro u hu
      simp only [seed_demo_tasks, List.mem_cons, List.not_mem_nil, or_false] at hu
      rcases hu with rfl | rfl | rfl | rfl | rfl
      · exact ⟨(by decide : ("Planned" : String) ∈ VALID_STATUSES), le_refl now,
          (by decide : pyStrip "Implement auth stub" ≠ ""),
          (by decide : pyStrip "Alice" ≠ "")⟩
      · exact ⟨(by decide : ("In Progress" : String) ∈ VALID_STATUSES), le_refl now,
          (by decide : pyStrip "Refactor data layer" ≠ ""),
          (by decide : pyStrip "Bob" ≠ "")⟩
      · exact ⟨(by decide : ("Blocked" : String) ∈ VALID_STATUSES), le_refl now,
          (by decide : pyStrip "Fix flaky tests" ≠ ""),
          (by decide : pyStrip "Carol" ≠ "")⟩
      · exact ⟨(by decide : ("In Progress" : String) ∈ VALID_STATUSES), le_refl now,
          (by decide : pyStrip "Improve dashboards" ≠ ""),
          (by decide : pyStrip "Dana" ≠ "")⟩
      · exact ⟨(by decide : ("Completed" : String) ∈ VALID_STATUSES), le_refl now,
          (by decide : pyStrip "Ship v1" ≠ ""),
          (by decide : pyStrip "Eve" ≠ "")⟩

/-- Witness for `store_ops_preserve_invariant` from the empty store. -/
theorem store_ops_preserve_invariant_witness :
    StoreInv (create_task ⟨[], 3⟩ 5 "n1" "Fix" "d" "Ana" "Planned").2.tasks_df ∧
    StoreInv (update_task ⟨[], 3⟩ 5 "t9" none none none none).2.tasks_df ∧
    StoreInv (reset_all_tasks ⟨[], 3⟩).tasks_df ∧
    StoreInv (seed_demo_tasks ⟨[], 3⟩ 5 "a" "b" "c" "d" "e").tasks_df :=
  store_ops_preserve_invariant ⟨[], 3⟩ (by simp [StoreInv]) 5 "n1" "Fix" "d" "Ana"
    "Planned" "t9" none none none none "a" "b" "c" "d" "e"
    (by simp) (by simp) (by decide)

/-- C9: `get_tasks_df` hands back an independent copy of the stored
frame: the returned object holds the same rows as the store, the
store's own cell is untouched by the read, and any in-place mutation of
the returned copy leaves what the store holds unchanged. -/
theorem get_tasks_df_returns_copy (sess : SessionRef) (h : PandasHeap) (v : List Task)
    (hv : sess.tasks_ref < h.next) :
    (get_tasks_df_ref sess h).2.cells (get_tasks_df_ref sess h).1 =
      h.cells sess.tasks_ref ∧
    (get_tasks_df_ref sess h).2.cells sess.tasks_ref = h.cells sess.tasks_ref ∧
    (heap_write (get_tasks_df_ref sess h).2 (get_tasks_df_ref sess h).1 v).cells
        sess.tasks_ref = h.cells sess.tasks_ref := by
  have hne : sess.tasks_ref ≠ h.next := Nat.ne_of_lt hv
  exact ⟨by simp [get_tasks_df_ref], by simp [get_tasks_df_ref, hne],
    by simp [heap_write, get_tasks_df_ref, hne]⟩

/-- Witness for `get_tasks_df_returns_copy` on a one-cell heap. -/
theorem get_tasks_df_returns_copy_witness :
    (get_tasks_df_ref ⟨0⟩ ⟨fun _ => [], 1⟩).2.cells
        (get_tasks_df_ref ⟨0⟩ ⟨fun _ => [], 1⟩).1 = ([] : List Task) ∧
    (get_tasks_df_ref ⟨0⟩ ⟨fun _ => [], 1⟩).2.cells 0 = ([] : List Task) ∧
    (heap_write (get_tasks_df_ref ⟨0⟩ ⟨fun _ => [], 1⟩).2
        (get_tasks_df_ref ⟨0⟩ ⟨fun _ => [], 1⟩).1
        [⟨"x", "t", "d", "o", "Planned", 0, 0⟩]).cells 0 = ([] : List Task) :=
  get_tasks_df_returns_copy ⟨0⟩ ⟨fun _ => [], 1⟩
    [⟨"x", "t", "d", "o", "Planned", 0, 0⟩] (by decide)

end WorkStream
